import Mathlib

/-!
Verification of the tianshui remote-sensing platform against its
natural-language specification.

The Python sources are shallowly embedded: raster band values are modelled
as rationals (`ℚ`), a possibly-missing (NaN / non-finite) pixel as
`Option ℚ`, numpy elementwise array operations as list operations, and
Django ORM records as explicit Lean structures with lists of rows as
tables.  Operations that can fail (`try/except ... return None`) return
`Option`/`Except`.
-/

/-! ### Shared numeric helpers

`np.clip(x, -1, 1)` for a real (non-NaN) pixel value, and the
denominator substitution `denominator[denominator == 0] = 1e-10` used by
every ratio index in both engines
(`src/environment/ecological_indices.py` and
`src/environment/gdal_ecological_indices.py`). -/

def clip1 (x : ℚ) : ℚ := max (-1) (min 1 x)

def safeDenom (d : ℚ) : ℚ := if d = 0 then (1e-10 : ℚ) else d

/-- Minimum of a list of rationals (`np.min` / `np.nanmin` over the valid
values); `none` on the empty list. -/
def listMin : List ℚ → Option ℚ
  | [] => none
  | x :: xs =>
    match listMin xs with
    | none => some x
    | some m => some (min x m)

/-- Maximum of a list of rationals (`np.max` / `np.nanmax` over the valid
values); `none` on the empty list. -/
def listMax : List ℚ → Option ℚ
  | [] => none
  | x :: xs =>
    match listMax xs with
    | none => some x
    | some m => some (max x m)

namespace EcologicalIndexCalculator

/-!
Engine A: `EcologicalIndexCalculator` in
`src/environment/ecological_indices.py`.  `self.bands` (the rasterio band
stack, 0-based) is modelled as `List (List ℚ)`: a list of bands, each a
flattened pixel list.  Indexing a missing band (`IndexError`, caught by
the `except` clause) yields `none`.
-/

/-- Per-pixel body of `calculate_ndvi` (lines 46-65): substitute `1e-10`
for a zero denominator, divide, clip to `[-1, 1]`. -/
def ndviPixel (red nir : ℚ) : ℚ := clip1 ((nir - red) / safeDenom (nir + red))

/-- Per-pixel body of `calculate_ndwi` (lines 67-83). -/
def ndwiPixel (green nir : ℚ) : ℚ := clip1 ((green - nir) / safeDenom (green + nir))

/-- Per-pixel body of `calculate_ndbi` (lines 85-101). -/
def ndbiPixel (nir swir : ℚ) : ℚ := clip1 ((swir - nir) / safeDenom (nir + swir))

/-- Per-pixel body of `calculate_ndsi` (lines 103-119). -/
def ndsiPixel (green swir : ℚ) : ℚ := clip1 ((green - swir) / safeDenom (green + swir))

/-- `calculate_ndvi`: red = `bands[2]`, nir = `bands[3]`. -/
def calculate_ndvi (bands : List (List ℚ)) : Option (List ℚ) :=
  match bands.get? 2, bands.get? 3 with
  | some red, some nir => some (List.zipWith ndviPixel red nir)
  | _, _ => none

/-- `calculate_ndwi`: green = `bands[1]`, nir = `bands[3]`. -/
def calculate_ndwi (bands : List (List ℚ)) : Option (List ℚ) :=
  match bands.get? 1, bands.get? 3 with
  | some green, some nir => some (List.zipWith ndwiPixel green nir)
  | _, _ => none

/-- `calculate_ndbi`: nir = `bands[3]`, swir = `bands[4]`. -/
def calculate_ndbi (bands : List (List ℚ)) : Option (List ℚ) :=
  match bands.get? 3, bands.get? 4 with
  | some nir, some swir => some (List.zipWith ndbiPixel nir swir)
  | _, _ => none

/-- `calculate_ndsi`: green = `bands[1]`, swir = `bands[4]`. -/
def calculate_ndsi (bands : List (List ℚ)) : Option (List ℚ) :=
  match bands.get? 1, bands.get? 4 with
  | some green, some swir => some (List.zipWith ndsiPixel green swir)
  | _, _ => none

end EcologicalIndexCalculator

namespace GDALCalc

/-!
Engine B: `GDALEcologicalIndexCalculator` in
`src/environment/gdal_ecological_indices.py`.  `self.bands` is a dict
keyed `1 .. band_count`; it is modelled as `List (List (Option ℚ))` where
band `n` is entry `n - 1` and a pixel is `none` when the float value is
non-finite (the engine masks on `np.isfinite`).
-/

/-- Band lookup `self.bands[n]` for the 1-based dict key `n`. -/
def getBand (bands : List (List (Option ℚ))) (n : ℕ) : Option (List (Option ℚ)) :=
  bands.get? (n - 1)

/-- Per-pixel body of Engine B's `calculate_ndvi` (lines 106-146): a pixel
is computed only when both operand bands are finite; the zero denominator
is substituted with `1e-10` and the result clipped to `[-1, 1]`
(`np.clip` leaves the `NaN` pixels `NaN`). -/
def ndviPixel (red nir : Option ℚ) : Option ℚ :=
  match red, nir with
  | some r, some n => some (clip1 ((n - r) / safeDenom (n + r)))
  | _, _ => none

/-- Per-pixel body of Engine B's `calculate_ndwi` (lines 148-188). -/
def ndwiPixel (green nir : Option ℚ) : Option ℚ :=
  match green, nir with
  | some g, some n => some (clip1 ((g - n) / safeDenom (g + n)))
  | _, _ => none

/-- Per-pixel body of Engine B's `calculate_ndbi` (lines 190-230). -/
def ndbiPixel (nir swir : Option ℚ) : Option ℚ :=
  match nir, swir with
  | some n, some s => some (clip1 ((s - n) / safeDenom (n + s)))
  | _, _ => none

/-- Per-pixel body of Engine B's `calculate_ndsi` (lines 232-272). -/
def ndsiPixel (green swir : Option ℚ) : Option ℚ :=
  match green, swir with
  | some g, some s => some (clip1 ((g - s) / safeDenom (g + s)))
  | _, _ => none

/-- Engine B `calculate_ndvi(red_band=3, nir_band=4)`; a missing band
number raises `ValueError`, caught into `None`. -/
def calculate_ndvi (bands : List (List (Option ℚ))) (red_band nir_band : ℕ) :
    Option (List (Option ℚ)) :=
  match getBand bands red_band, getBand bands nir_band with
  | some red, some nir => some (List.zipWith ndviPixel red nir)
  | _, _ => none

/-- Engine B `calculate_ndwi(green_band=2, nir_band=4)`. -/
def calculate_ndwi (bands : List (List (Option ℚ))) (green_band nir_band : ℕ) :
    Option (List (Option ℚ)) :=
  match getBand bands green_band, getBand bands nir_band with
  | some green, some nir => some (List.zipWith ndwiPixel green nir)
  | _, _ => none

/-- Engine B `calculate_ndbi(nir_band=4, swir_band=5)`. -/
def calculate_ndbi (bands : List (List (Option ℚ))) (nir_band swir_band : ℕ) :
    Option (List (Option ℚ)) :=
  match getBand bands nir_band, getBand bands swir_band with
  | some nir, some swir => some (List.zipWith ndbiPixel nir swir)
  | _, _ => none

/-- Engine B `calculate_ndsi(green_band=2, swir_band=5)`. -/
def calculate_ndsi (bands : List (List (Option ℚ))) (green_band swir_band : ℕ) :
    Option (List (Option ℚ)) :=
  match getBand bands green_band, getBand bands swir_band with
  | some green, some swir => some (List.zipWith ndsiPixel green swir)
  | _, _ => none

end GDALCalc

/-! ### Helper lemmas -/

theorem clip1_mem (x : ℚ) : -1 ≤ clip1 x ∧ clip1 x ≤ 1 := by
  constructor
  · exact le_max_left _ _
  · simp only [clip1, max_le_iff]
    exact ⟨by norm_num, min_le_left _ _⟩

theorem get?_zipWith {α β γ : Type} (f : α → β → γ) (as : List α) (bs : List β)
    (i : ℕ) (a : α) (b : β) (ha : as.get? i = some a) (hb : bs.get? i = some b) :
    (List.zipWith f as bs).get? i = some (f a b) := by
  induction as generalizing bs i with
  | nil => simp at ha
  | cons x xs ih =>
    cases bs with
    | nil => simp at hb
    | cons y ys =>
      cases i with
      | zero =>
        simp only [List.get?] at ha hb
        cases ha; cases hb; rfl
      | succ n =>
        simp only [List.get?] at ha hb ⊢
        exact ih ys n ha hb

/-- C5: in both Engine A (`ecological_indices.py`) and Engine B
(`gdal_ecological_indices.py`), for every pixel at which a ratio-index
denominator (NIR+Red for NDVI, Green+NIR for NDWI, NIR+SWIR1 for NDBI,
Green+SWIR1 for NDSI) is exactly zero, the calculation substitutes `1e-10`
for the denominator and produces a defined (finite, since rational) result
clamped to `[-1, 1]` at that pixel rather than failing. -/
theorem c5_ratio_zero_denominator :
    (∀ (bands : List (List ℚ)) (red nir : List ℚ) (i : ℕ) (r n : ℚ),
        bands.get? 2 = some red → bands.get? 3 = some nir →
        red.get? i = some r → nir.get? i = some n → n + r = 0 →
        ∃ out y, EcologicalIndexCalculator.calculate_ndvi bands = some out ∧
          out.get? i = some y ∧ -1 ≤ y ∧ y ≤ 1) ∧
    (∀ (bands : List (List ℚ)) (green nir : List ℚ) (i : ℕ) (g n : ℚ),
        bands.get? 1 = some green → bands.get? 3 = some nir →
        green.get? i = some g → nir.get? i = some n → g + n = 0 →
        ∃ out y, EcologicalIndexCalculator.calculate_ndwi bands = some out ∧
          out.get? i = some y ∧ -1 ≤ y ∧ y ≤ 1) ∧
    (∀ (bands : List (List ℚ)) (nir swir : List ℚ) (i : ℕ) (n s : ℚ),
        bands.get? 3 = some nir → bands.get? 4 = some swir →
        nir.get? i = some n → swir.get? i = some s → n + s = 0 →
        ∃ out y, EcologicalIndexCalculator.calculate_ndbi bands = some out ∧
          out.get? i = some y ∧ -1 ≤ y ∧ y ≤ 1) ∧
    (∀ (bands : List (List ℚ)) (green swir : List ℚ) (i : ℕ) (g s : ℚ),
        bands.get? 1 = some green → bands.get? 4 = some swir →
        green.get? i = some g → swir.get? i = some s → g + s = 0 →
        ∃ out y, EcologicalIndexCalculator.calculate_ndsi bands = some out ∧
          out.get? i = some y ∧ -1 ≤ y ∧ y ≤ 1) ∧
    (∀ (bands : List (List (Option ℚ))) (rb nb : ℕ) (red nir : List (Option ℚ))
        (i : ℕ) (r n : ℚ),
        GDALCalc.getBand bands rb = some red → GDALCalc.getBand bands nb = some nir →
        red.get? i = some (some r) → nir.get? i = some (some n) → n + r = 0 →
        ∃ out y, GDALCalc.calculate_ndvi bands rb nb = some out ∧
          out.get? i = some (some y) ∧ -1 ≤ y ∧ y ≤ 1) ∧
    (∀ (bands : List (List (Option ℚ))) (gb nb : ℕ) (green nir : List (Option ℚ))
        (i : ℕ) (g n : ℚ),
        GDALCalc.getBand bands gb = some green → GDALCalc.getBand bands nb = some nir →
        green.get? i = some (some g) → nir.get? i = some (some n) → g + n = 0 →
        ∃ out y, GDALCalc.calculate_ndwi bands gb nb = some out ∧
          out.get? i = some (some y) ∧ -1 ≤ y ∧ y ≤ 1) ∧
    (∀ (bands : List (List (Option ℚ))) (nb sb : ℕ) (nir swir : List (Option ℚ))
        (i : ℕ) (n s : ℚ),
        GDALCalc.getBand bands nb = some nir → GDALCalc.getBand bands sb = some swir →
        nir.get? i = some (some n) → swir.get? i = some (some s) → n + s = 0 →
        ∃ out y, GDALCalc.calculate_ndbi bands nb sb = some out ∧
          out.get? i = some (some y) ∧ -1 ≤ y ∧ y ≤ 1) ∧
    (∀ (bands : List (List (Option ℚ))) (gb sb : ℕ) (green swir : List (Option ℚ))
        (i : ℕ) (g s : ℚ),
        GDALCalc.getBand bands gb = some green → GDALCalc.getBand bands sb = some swir →
        green.get? i = some (some g) → swir.get? i = some (some s) → g + s = 0 →
        ∃ out y, GDALCalc.calculate_ndsi bands gb sb = some out ∧
          out.get? i = some (some y) ∧ -1 ≤ y ∧ y ≤ 1) := by
  refine ⟨?_, ?_, ?_, ?_, ?_, ?_, ?_, ?_⟩
  · intro bands red nir i r n h2 h3 hr hn _
    refine ⟨List.zipWith EcologicalIndexCalculator.ndviPixel red nir,
      EcologicalIndexCalculator.ndviPixel r n, ?_, ?_, ?_, ?_⟩
    · simp only [List.get?_eq_getElem?] at h2 h3
      simp [EcologicalIndexCalculator.calculate_ndvi, h2, h3]
    · exact get?_zipWith _ _ _ _ _ _ hr hn
    · exact (clip1_mem _).1
    · exact (clip1_mem _).2
  · intro bands green nir i g n h1 h3 hg hn _
    refine ⟨List.zipWith EcologicalIndexCalculator.ndwiPixel green nir,
      EcologicalIndexCalculator.ndwiPixel g n, ?_, ?_, ?_, ?_⟩
    · simp only [List.get?_eq_getElem?] at h1 h3
      simp [EcologicalIndexCalculator.calculate_ndwi, h1, h3]
    · exact get?_zipWith _ _ _ _ _ _ hg hn
    · exact (clip1_mem _).1
    · exact (clip1_mem _).2
  · intro bands nir swir i n s h3 h4 hn hs _
    refine ⟨List.zipWith EcologicalIndexCalculator.ndbiPixel nir swir,
      EcologicalIndexCalculator.ndbiPixel n s, ?_, ?_, ?_, ?_⟩
    · simp only [List.get?_eq_getElem?] at h3 h4
      simp [EcologicalIndexCalculator.calculate_ndbi, h3, h4]
    · exact get?_zipWith _ _ _ _ _ _ hn hs
    · exact (clip1_mem _).1
    · exact (clip1_mem _).2
  · intro bands green swir i g s h1 h4 hg hs _
    refine ⟨List.zipWith EcologicalIndexCalculator.ndsiPixel green swir,
      EcologicalIndexCalculator.ndsiPixel g s, ?_, ?_, ?_, ?_⟩
    · simp only [List.get?_eq_getElem?] at h1 h4
      simp [EcologicalIndexCalculator.calculate_ndsi, h1, h4]
    · exact get?_zipWith _ _ _ _ _ _ hg hs
    · exact (clip1_mem _).1
    · exact (clip1_mem _).2
  · intro bands rb nb red nir i r n h2 h3 hr hn _
    refine ⟨List.zipWith GDALCalc.ndviPixel red nir,
      clip1 ((n - r) / safeDenom (n + r)), ?_, ?_, ?_, ?_⟩
    · simp [GDALCalc.calculate_ndvi, h2, h3]
    · exact get?_zipWith _ _ _ _ _ _ hr hn
    · exact (clip1_mem _).1
    · exact (clip1_mem _).2
  · intro bands gb nb green nir i g n h1 h3 hg hn _
    refine ⟨List.zipWith GDALCalc.ndwiPixel green nir,
      clip1 ((g - n) / safeDenom (g + n)), ?_, ?_, ?_, ?_⟩
    · simp [GDALCalc.calculate_ndwi, h1, h3]
    · exact get?_zipWith _ _ _ _ _ _ hg hn
    · exact (clip1_mem _).1
    · exact (clip1_mem _).2
  · intro bands nb sb nir swir i n s h3 h4 hn hs _
    refine ⟨List.zipWith GDALCalc.ndbiPixel nir swir,
      clip1 ((s - n) / safeDenom (n + s)), ?_, ?_, ?_, ?_⟩
    · simp [GDALCalc.calculate_ndbi, h3, h4]
    · exact get?_zipWith _ _ _ _ _ _ hn hs
    · exact (clip1_mem _).1
    · exact (clip1_mem _).2
  · intro bands gb sb green swir i g s h1 h4 hg hs _
    refine ⟨List.zipWith GDALCalc.ndsiPixel green swir,
      clip1 ((g - s) / safeDenom (g + s)), ?_, ?_, ?_, ?_⟩
    · simp [GDALCalc.calculate_ndsi, h1, h4]
    · exact get?_zipWith _ _ _ _ _ _ hg hs
    · exact (clip1_mem _).1
    · exact (clip1_mem _).2

/-- C5 witness: a concrete 5-band all-zero raster hits the zero
denominator in all eight ratio-index calculations. -/
theorem c5_ratio_zero_denominator_witness :
    (∃ out y, EcologicalIndexCalculator.calculate_ndvi
        [[0], [0], [0], [0], [0]] = some out ∧
      out.get? 0 = some y ∧ -1 ≤ y ∧ y ≤ 1) ∧
    (∃ out y, EcologicalIndexCalculator.calculate_ndwi
        [[0], [0], [0], [0], [0]] = some out ∧
      out.get? 0 = some y ∧ -1 ≤ y ∧ y ≤ 1) ∧
    (∃ out y, EcologicalIndexCalculator.calculate_ndbi
        [[0], [0], [0], [0], [0]] = some out ∧
      out.get? 0 = some y ∧ -1 ≤ y ∧ y ≤ 1) ∧
    (∃ out y, EcologicalIndexCalculator.calculate_ndsi
        [[0], [0], [0], [0], [0]] = some out ∧
      out.get? 0 = some y ∧ -1 ≤ y ∧ y ≤ 1) ∧
    (∃ out y, GDALCalc.calculate_ndvi
        [[some 0], [some 0], [some 0], [some 0], [some 0]] 3 4 = some out ∧
      out.get? 0 = some (some y) ∧ -1 ≤ y ∧ y ≤ 1) ∧
    (∃ out y, GDALCalc.calculate_ndwi
        [[some 0], [some 0], [some 0], [some 0], [some 0]] 2 4 = some out ∧
      out.get? 0 = some (some y) ∧ -1 ≤ y ∧ y ≤ 1) ∧
    (∃ out y, GDALCalc.calculate_ndbi
        [[some 0], [some 0], [some 0], [some 0], [some 0]] 4 5 = some out ∧
      out.get? 0 = some (some y) ∧ -1 ≤ y ∧ y ≤ 1) ∧
    (∃ out y, GDALCalc.calculate_ndsi
        [[some 0], [some 0], [some 0], [some 0], [some 0]] 2 5 = some out ∧
      out.get? 0 = some (some y) ∧ -1 ≤ y ∧ y ≤ 1) := by
  obtain ⟨h1, h2, h3, h4, h5, h6, h7, h8⟩ := c5_ratio_zero_denominator
  exact ⟨h1 _ _ _ 0 0 0 rfl rfl rfl rfl (by norm_num),
    h2 _ _ _ 0 0 0 rfl rfl rfl rfl (by norm_num),
    h3 _ _ _ 0 0 0 rfl rfl rfl rfl (by norm_num),
    h4 _ _ _ 0 0 0 rfl rfl rfl rfl (by norm_num),
    h5 _ 3 4 _ _ 0 0 0 rfl rfl rfl rfl (by norm_num),
    h6 _ 2 4 _ _ 0 0 0 rfl rfl rfl rfl (by norm_num),
    h7 _ 4 5 _ _ 0 0 0 rfl rfl rfl rfl (by norm_num),
    h8 _ 2 5 _ _ 0 0 0 rfl rfl rfl rfl (by norm_num)⟩


namespace UploadSerializer

/-!
`RemoteSensingImageUploadSerializer.validate_file_path` in
`src/environment/serializers.py` (lines 93-107).  A Django uploaded file
is modelled by its `name` (a Python string, i.e. a sequence of
characters) and `size : ℕ` (bytes); raising
`serializers.ValidationError` (the InvalidInput kind) is modelled as
`Except.error`.
-/

/-- Python `str.lower()`. -/
def pyLower (s : List Char) : List Char := s.map Char.toLower

/-- Python `str.endswith(suffix)`. -/
def pyEndsWith (s suffix : List Char) : Bool := suffix.isSuffixOf s

def allowed_extensions : List (List Char) :=
  [".tif".toList, ".tiff".toList, ".img".toList, ".hdf".toList,
   ".nc".toList, ".zip".toList]

/-- `validate_file_path`: reject when the lower-cased file name ends with
none of the allowed extensions, then reject when the size exceeds
`50 * 1024 * 1024` bytes, else accept. -/
def validate_file_path (name : List Char) (size : ℕ) : Except String Unit :=
  let file_extension := pyLower name
  if !(allowed_extensions.any fun ext => pyEndsWith file_extension ext) then
    Except.error "unsupported file format"
  else if size > 50 * 1024 * 1024 then
    Except.error "file exceeds 50MB"
  else
    Except.ok ()

end UploadSerializer

/-- C7: the upload validator rejects as InvalidInput every file whose
(lower-cased) name ends with none of `.tif/.tiff/.img/.hdf/.nc/.zip`
regardless of size, and every file larger than 50 MB; a file with an
allowed extension of exactly `50 * 1024 * 1024` bytes passes, and one of
`50 MB + 1` bytes is rejected. -/
theorem c7_upload_validation :
    (∀ (name : List Char) (size : ℕ),
        (UploadSerializer.allowed_extensions.any
          fun ext => UploadSerializer.pyEndsWith (UploadSerializer.pyLower name) ext)
            = false →
        ∃ e, UploadSerializer.validate_file_path name size = Except.error e) ∧
    (∀ (name : List Char) (size : ℕ), 50 * 1024 * 1024 < size →
        ∃ e, UploadSerializer.validate_file_path name size = Except.error e) ∧
    (∀ name : List Char,
        (UploadSerializer.allowed_extensions.any
          fun ext => UploadSerializer.pyEndsWith (UploadSerializer.pyLower name) ext)
            = true →
        UploadSerializer.validate_file_path name (50 * 1024 * 1024) = Except.ok ()) ∧
    (∀ name : List Char,
        ∃ e, UploadSerializer.validate_file_path name (50 * 1024 * 1024 + 1) =
          Except.error e) := by
  refine ⟨?_, ?_, ?_, ?_⟩
  · intro name size h
    exact ⟨"unsupported file format", by simp [UploadSerializer.validate_file_path, h]⟩
  · intro name size h
    by_cases hext : (UploadSerializer.allowed_extensions.any
        fun ext => UploadSerializer.pyEndsWith (UploadSerializer.pyLower name) ext) = true
    · exact ⟨"file exceeds 50MB",
        by simp [UploadSerializer.validate_file_path, hext, if_pos h]⟩
    · exact ⟨"unsupported file format",
        by simp [UploadSerializer.validate_file_path, Bool.eq_false_iff.mpr hext]⟩
  · intro name h
    simp [UploadSerializer.validate_file_path, h]
  · intro name
    by_cases hext : (UploadSerializer.allowed_extensions.any
        fun ext => UploadSerializer.pyEndsWith (UploadSerializer.pyLower name) ext) = true
    · exact ⟨"file exceeds 50MB", by simp [UploadSerializer.validate_file_path, hext]⟩
    · exact ⟨"unsupported file format",
        by simp [UploadSerializer.validate_file_path, Bool.eq_false_iff.mpr hext]⟩

/-- C7 witness: `report.txt` is rejected at any size, a 50 MB `image.TIF`
passes (extension matching is case-insensitive through `lower()`), and a
`50 MB + 1` byte `image.tif` is rejected. -/
theorem c7_upload_validation_witness :
    (∃ e, UploadSerializer.validate_file_path "report.txt".toList 10 =
      Except.error e) ∧
    (UploadSerializer.validate_file_path "image.TIF".toList (50 * 1024 * 1024) =
      Except.ok ()) ∧
    (∃ e, UploadSerializer.validate_file_path "image.tif".toList
      (50 * 1024 * 1024 + 1) = Except.error e) :=
  ⟨c7_upload_validation.1 "report.txt".toList 10 (by decide),
   c7_upload_validation.2.2.1 "image.TIF".toList (by decide),
   c7_upload_validation.2.2.2 "image.tif".toList⟩

namespace ProcessingTaskModel

/-!
The `ProcessingTask` Django model in `src/environment/models.py`
(lines 139-173) versus its users.  A Django model row is created by
`Model.objects.create(**kwargs)`, which raises `TypeError` when a keyword
names no model field; this ORM boundary is modelled by checking every
keyword against the declared column list.
-/

/-- The fields declared on `ProcessingTask` in `models.py` (lines
149-164). -/
def fieldNames : List String :=
  ["id", "remote_sensing_image", "task_type", "status", "progress",
   "current_step", "error_message", "created_at", "started_at", "completed_at"]

/-- Keywords passed by `calculate_ecological_indices` to
`ProcessingTask.objects.create` (`src/environment/tasks.py` lines 32-37). -/
def calcIndicesCreateKwargs : List String :=
  ["remote_sensing_image", "task_type", "status", "celery_task_id"]

/-- Keywords passed by `calculate_rsei_only` to
`ProcessingTask.objects.create` (`src/environment/tasks.py` lines 246-251). -/
def rseiOnlyCreateKwargs : List String :=
  ["remote_sensing_image", "task_type", "status", "celery_task_id"]

/-- Fields the `ProcessingTaskSerializer` exposes
(`src/environment/serializers.py` lines 77-84). -/
def serializerFields : List String :=
  ["id", "remote_sensing_image", "task_type", "status", "status_display",
   "celery_task_id", "progress", "current_step", "error_message",
   "created_at", "started_at", "completed_at"]

/-- `ProcessingTask.objects.create(**kwargs)`: `TypeError` when a keyword
names no declared field. -/
def create (kwargs : List String) : Except String Unit :=
  if kwargs.all fun k => fieldNames.contains k then Except.ok ()
  else Except.error "TypeError: unexpected keyword argument"

end ProcessingTaskModel

/-- C1 (code bug): both orchestrator jobs pass `celery_task_id` when
creating their `ProcessingTask` row, the serializer and the task-status
view read `task.celery_task_id` back, yet the `ProcessingTask` model
declares no such field, so the `objects.create` call of either job fails
with `TypeError` instead of storing the job identifier. -/
theorem c1_celery_task_id_missing_from_model :
    ("celery_task_id" ∈ ProcessingTaskModel.calcIndicesCreateKwargs) ∧
    ("celery_task_id" ∈ ProcessingTaskModel.rseiOnlyCreateKwargs) ∧
    ("celery_task_id" ∈ ProcessingTaskModel.serializerFields) ∧
    ("celery_task_id" ∉ ProcessingTaskModel.fieldNames) ∧
    (∃ e, ProcessingTaskModel.create ProcessingTaskModel.calcIndicesCreateKwargs =
      Except.error e) ∧
    (∃ e, ProcessingTaskModel.create ProcessingTaskModel.rseiOnlyCreateKwargs =
      Except.error e) := by
  refine ⟨by decide, by decide, by decide, by decide,
    ⟨"TypeError: unexpected keyword argument", by rfl⟩,
    ⟨"TypeError: unexpected keyword argument", by rfl⟩⟩

namespace GDALCalc

/-- Landsat-8 Tasseled Cap coefficient table of Engine B's
`calculate_tasseled_cap` (`gdal_ecological_indices.py` lines 282-289),
band order `[Blue, Green, Red, NIR, SWIR1, SWIR2]`. -/
def tc_coefficients : List (String × List ℚ) :=
  [("brightness", [0.3029, 0.2786, 0.4733, 0.5599, 0.5080, 0.1872]),
   ("greenness", [-0.2941, -0.2430, -0.5424, 0.7276, 0.0713, -0.1608]),
   ("wetness", [0.1511, 0.1973, 0.3283, 0.3407, -0.7117, -0.4559]),
   ("fourth", [-0.8239, 0.0849, 0.4396, -0.0580, 0.2013, -0.2773]),
   ("fifth", [-0.3294, 0.0557, 0.1056, 0.1855, -0.4349, 0.8085]),
   ("sixth", [0.1079, -0.9023, 0.4119, 0.0575, -0.0259, 0.0252])]

/-- `np.dot` of a coefficient vector with one pixel's band-value vector. -/
def tcDot (coefs pixel : List ℚ) : ℚ := (List.zipWith (· * ·) coefs pixel).sum

/-- Engine B `calculate_tasseled_cap` (lines 274-312).  `band_data`
collects bands `1 .. min(6, band_count)`; `np.column_stack` on an empty
list raises (caught, `None`); a component is emitted only under the
guard `len(coefficients) <= len(band_data)`, and then uses
`coefficients[:len(band_data)]`.  The pixel count is the first band's
length (`np.column_stack` row count). -/
def calculate_tasseled_cap (bands : List (List ℚ)) :
    Option (List (String × List ℚ)) :=
  let band_data := bands.take 6
  if band_data.isEmpty then none
  else
    some (tc_coefficients.filterMap fun nc =>
      if nc.2.length ≤ band_data.length then
        some (nc.1, (List.range (band_data.headD []).length).map fun j =>
          tcDot (nc.2.take band_data.length) (band_data.filterMap fun b => b.get? j))
      else none)

end GDALCalc

theorem filterMap_guard_eq_map {α β : Type} (l : List α) (p : α → Prop)
    [DecidablePred p] (g : α → β) (h : ∀ a ∈ l, p a) :
    (l.filterMap fun a => if p a then some (g a) else none) = l.map g := by
  induction l with
  | nil => rfl
  | cons x xs ih =>
    rw [List.filterMap_cons, if_pos (h x (List.mem_cons_self x xs)), List.map_cons]
    rw [ih fun a ha => h a (List.mem_cons_of_mem x ha)]

/-- C2 counterexample: a loaded image with five available bands (here one
pixel each, all 1) yields a Tasseled Cap result containing NO components
at all — the `len(coefficients) <= len(band_data)` guard skips every
component when fewer than six bands are available, so no truncated dot
product is ever produced. -/
theorem c2_truncated_dot_counterexample :
    GDALCalc.calculate_tasseled_cap [[(1 : ℚ)], [1], [1], [1], [1]] = some [] := by
  rfl

/-- C2 amended: for every loaded image with at least one band, the
Tasseled Cap transform produces components only when at least six bands
are available; with `1 ≤ k < 6` bands it succeeds but returns an empty
component map, and with `k ≥ 6` bands each of the six components is the
dot product of its full six-entry coefficient vector with the first six
bands (never a truncated dot product). -/
theorem c2_tasseled_cap_component_guard (b0 : List ℚ) (rest : List (List ℚ)) :
    ((b0 :: rest).length < 6 →
      GDALCalc.calculate_tasseled_cap (b0 :: rest) = some []) ∧
    (6 ≤ (b0 :: rest).length →
      GDALCalc.calculate_tasseled_cap (b0 :: rest) =
        some (GDALCalc.tc_coefficients.map fun nc =>
          (nc.1, (List.range b0.length).map fun j =>
            GDALCalc.tcDot nc.2
              (((b0 :: rest).take 6).filterMap fun b => b.get? j)))) := by
  constructor
  · intro h
    unfold GDALCalc.calculate_tasseled_cap
    rw [if_neg (by simp)]
    congr 1
    rw [List.filterMap_eq_nil_iff]
    intro nc hnc
    rw [if_neg]
    have h6 : nc.2.length = 6 := by fin_cases hnc <;> rfl
    rw [h6, List.length_take]
    simp only [List.length_cons] at h ⊢
    omega
  · intro h
    have hlen : ((b0 :: rest).take 6).length = 6 := by
      rw [List.length_take, List.length_cons]
      simp only [List.length_cons] at h
      omega
    unfold GDALCalc.calculate_tasseled_cap
    rw [if_neg (by simp)]
    congr 1
    rw [filterMap_guard_eq_map _ _ _ ?side]
    case side =>
      intro nc hnc
      have h6 : nc.2.length = 6 := by fin_cases hnc <;> rfl
      rw [h6, hlen]
    apply List.map_congr_left
    intro nc hnc
    have htake : ∀ l : List ℚ, l.length = 6 →
        l.take (((b0 :: rest).take 6).length) = l := by
      intro l hl
      rw [hlen, ← hl, List.take_length]
    have h6 : nc.2.length = 6 := by fin_cases hnc <;> rfl
    rw [htake _ h6]
    rfl

/-- C2 witness: with six bands every component is the full six-term dot
product; with five bands the component map is empty. -/
theorem c2_tasseled_cap_component_guard_witness :
    (GDALCalc.calculate_tasseled_cap [[(1 : ℚ)], [1], [1], [1], [1]] = some []) ∧
    (GDALCalc.calculate_tasseled_cap
        [[(1 : ℚ)], [1], [1], [1], [1], [1]] =
      some (GDALCalc.tc_coefficients.map fun nc =>
        (nc.1, (List.range 1).map fun j =>
          GDALCalc.tcDot nc.2
            ((([[(1 : ℚ)], [1], [1], [1], [1], [1]] : List (List ℚ)).take 6).filterMap
              fun b => b.get? j)))) :=
  ⟨(c2_tasseled_cap_component_guard [(1 : ℚ)]
      [[1], [1], [1], [1]]).1 (by decide),
   (c2_tasseled_cap_component_guard [(1 : ℚ)]
      [[1], [1], [1], [1], [1]]).2 (by decide)⟩

namespace UsersApp

/-!
`src/users/views.py` (`UserViewSet.login` / `UserViewSet.logout`, lines
34-64) and the `UserSession` model of `src/users/models.py` (lines
50-66).  The web framework's ambient state (credential store, the
framework session established by `django.contrib.auth.login/logout`, and
the `user_sessions` table) is an explicit `AuthState`; the credential
check `authenticate(username=..., password=...)` is the framework
boundary, modelled as a lookup in the credential list.
-/

/-- One `UserSession` row (`users/models.py` lines 50-66). -/
structure UserSessionRow where
  user : String
  session_key : String
  ip_address : String
  user_agent : String
  login_time : ℕ
  logout_time : Option ℕ
  is_active : Bool
deriving DecidableEq

/-- The framework-side state the account API operates on. -/
structure AuthState where
  credentials : List (String × String)
  currentUser : Option String
  userSessions : List UserSessionRow
deriving DecidableEq

/-- `django.contrib.auth.authenticate`: `None` unless the username and
password match a stored credential. -/
def authenticate (creds : List (String × String)) (u p : String) : Option String :=
  if (u, p) ∈ creds then some u else none

/-- `UserViewSet.login` (views.py lines 34-58): 400 when either field is
absent or empty (`if not username or not password`), 401 when
authentication fails, else `login(request, user)` (the framework session)
and 200.  Returns the new state and the HTTP status code. -/
def login (st : AuthState) (username password : Option String) : AuthState × ℕ :=
  match username, password with
  | some u, some p =>
    if u = "" ∨ p = "" then (st, 400)
    else
      match authenticate st.credentials u p with
      | some user => ({ st with currentUser := some user }, 200)
      | none => (st, 401)
  | _, _ => (st, 400)

/-- `UserViewSet.logout` (views.py lines 60-64): `logout(request)`
terminates the framework session unconditionally, 200. -/
def logout (st : AuthState) : AuthState × ℕ :=
  ({ st with currentUser := none }, 200)

end UsersApp

/-- C4 counterexample: a successful login (HTTP 200, framework session
established) leaves the `user_sessions` table empty — no `UserSession`
record is created, contradicting the claim that every successful login
creates one. -/
theorem c4_login_no_usersession_counterexample :
    (UsersApp.login ⟨[("alice", "secret123")], none, []⟩
        (some "alice") (some "secret123")).2 = 200 ∧
    (UsersApp.login ⟨[("alice", "secret123")], none, []⟩
        (some "alice") (some "secret123")).1.currentUser = some "alice" ∧
    (UsersApp.login ⟨[("alice", "secret123")], none, []⟩
        (some "alice") (some "secret123")).1.userSessions = [] := by
  refine ⟨rfl, rfl, rfl⟩

/-- C4 amended: login and logout never touch the `UserSession` table —
no code path in the repository creates, closes, or mutates a
`UserSession` row; a successful login only establishes the framework
session (and returns 200), and logout only terminates it.  The
`UserSession` model exists but is written by no operation. -/
theorem c4_session_records_never_written :
    ∀ (st : UsersApp.AuthState) (username password : Option String),
      ((UsersApp.login st username password).1.userSessions = st.userSessions) ∧
      ((UsersApp.logout st).1.userSessions = st.userSessions) ∧
      ((UsersApp.logout st).1.currentUser = none) ∧
      (∀ u p, username = some u → password = some p → u ≠ "" → p ≠ "" →
        UsersApp.authenticate st.credentials u p = some u →
        (UsersApp.login st username password).2 = 200 ∧
        (UsersApp.login st username password).1.currentUser = some u) := by
  intro st username password
  refine ⟨?_, rfl, rfl, ?_⟩
  · cases username with
    | none => rfl
    | some u =>
      cases password with
      | none => rfl
      | some p =>
        simp only [UsersApp.login]
        by_cases h : u = "" ∨ p = ""
        · rw [if_pos h]
        · rw [if_neg h]
          cases hauth : UsersApp.authenticate st.credentials u p <;> rfl
  · rintro u p rfl rfl hu hp hauth
    simp only [UsersApp.login]
    rw [if_neg (by simp [hu, hp]), hauth]
    exact ⟨rfl, rfl⟩

/-- C4 witness: concrete successful login and logout leave an initially
empty `user_sessions` table empty. -/
theorem c4_session_records_never_written_witness :
    ((UsersApp.login ⟨[("alice", "secret123")], none, []⟩
        (some "alice") (some "secret123")).1.userSessions = []) ∧
    ((UsersApp.login ⟨[("alice", "secret123")], none, []⟩
        (some "alice") (some "secret123")).2 = 200) := by
  obtain ⟨h1, _, _, h4⟩ := c4_session_records_never_written
    ⟨[("alice", "secret123")], none, []⟩ (some "alice") (some "secret123")
  exact ⟨h1, (h4 "alice" "secret123" rfl rfl (by decide) (by decide) (by decide)).1⟩

namespace Orchestrator

/-!
The `calculate_ecological_indices` Celery job in
`src/environment/tasks.py` (lines 18-230), modelled per target image.
The body first creates the `ProcessingTask` row
(`ProcessingTask.objects.create(..., celery_task_id=self.request.id)`,
lines 32-37); since the model declares no `celery_task_id` field (see
`ProcessingTaskModel`), that call raises `TypeError`, control passes to
the `except` block of lines 216-230 — where `task` is not in `locals()`,
so only the image is marked `processing_status='failed'` — and the
exception is re-raised.  The per-index Engine A computation results
depend on the raster, so they are a parameter
`compute : String → Option Unit` (`None` models both a calculation that
returned `None` and one that raised, lines 91-93 / 128-130), as is the
outcome of `calculator.calculate_rsei()` (lines 141-142).  The database
rows scoped to the image are explicit; `EcologicalIndex.objects.create`
enforces the `(remote_sensing_image, index_type)` uniqueness constraint
of `models.py` line 96, raising (caught by the per-index `except`) on a
duplicate.  Statistics/visualization results never affect row creation
(lines 96-123 create the row even when `stats` is `None`), so they are
not tracked.
-/

/-- An `EcologicalIndex` row for the target image. -/
structure EcologicalIndexRow where
  index_type : String
  result_file : String
deriving DecidableEq

/-- The job's `ProcessingTask` row, were its creation to succeed. -/
structure TaskRow where
  status : String
  progress : ℕ
deriving DecidableEq

/-- The image-scoped database state the job mutates: the
`EcologicalIndex` and `RSEIResult` rows, the image's `is_processed` /
`processing_status` fields, and the job's `ProcessingTask` row (`none`
while no such row exists). -/
structure DB where
  ecologicalIndices : List EcologicalIndexRow
  rseiResultCount : ℕ
  isProcessed : Bool
  processingStatus : String
  task : Option TaskRow
deriving DecidableEq

/-- State when the job is entered for a freshly uploaded image: no rows
for the image, `is_processed=False`, `processing_status='pending'`
(`models.py` lines 36-37), and no `ProcessingTask` row yet. -/
def initialDB : DB :=
  { ecologicalIndices := []
    rseiResultCount := 0
    isProcessed := false
    processingStatus := "pending"
    task := none }

/-- The index types the dispatch chain of tasks.py lines 71-86 knows. -/
def known_index_types : List String :=
  ["ndvi", "ndwi", "ndbi", "ndsi", "wetness", "dryness", "heat", "greenness"]

/-- The four RSEI component types checked at tasks.py line 133. -/
def rsei_components : List String := ["greenness", "wetness", "dryness", "heat"]

/-- `EcologicalIndex.objects.create(remote_sensing_image=image,
index_type=t, ...)`: `none` models the uniqueness-constraint violation. -/
def createEcologicalIndex (db : DB) (t : String) : Option DB :=
  if db.ecologicalIndices.any fun r => r.index_type = t then none
  else some { db with ecologicalIndices :=
    db.ecologicalIndices ++ [⟨t, t ++ "_result.tif"⟩] }

/-- One iteration of the `for i, index_type in enumerate(indices_list)`
loop (tasks.py lines 57-130): skip unknown types, skip a `None`
computation, otherwise persist the row and record the type in
`calculated_indices`; any exception inside the body (including the
duplicate-row `IntegrityError`) is caught and the loop continues. -/
def processOne (compute : String → Option Unit) (acc : DB × List String)
    (t : String) : DB × List String :=
  if t ∈ known_index_types then
    match compute t with
    | none => acc
    | some _ =>
      match createEcologicalIndex acc.1 t with
      | some db2 => (db2, acc.2 ++ [t])
      | none => acc
  else acc

/-- The RSEI assembly block (tasks.py lines 132-194), entered only when
all four components were calculated in this run: if
`calculator.calculate_rsei()` returns a result, persist the `rsei`
`EcologicalIndex` row and the `RSEIResult` row; any exception is caught
and ignored. -/
def rseiBlock (rseiOutcome : Option Unit) (db : DB) : DB :=
  match rseiOutcome with
  | none => db
  | some _ =>
    match createEcologicalIndex db "rsei" with
    | some db2 => { db2 with rseiResultCount := db2.rseiResultCount + 1 }
    | none => db

/-- The `calculate_ecological_indices` job body (tasks.py lines 27-230).
It first creates the `ProcessingTask` row with the keywords of lines
32-37 (including `celery_task_id`, which the model rejects with
`TypeError`); on that exception the `except` block of lines 216-230 runs
with `task` absent from `locals()`, marking only the image
`processing_status='failed'` and re-raising (`Except.error`).  Were the
creation to succeed, the body would run the per-index loop, the RSEI
block when all four components were calculated in this run, and mark the
image `is_processed=True`/`completed` and the task `completed`/100. -/
def calculate_ecological_indices (compute : String → Option Unit)
    (rseiOutcome : Option Unit) (indices_list : List String) (db : DB) :
    DB × Except String Unit :=
  match ProcessingTaskModel.create ProcessingTaskModel.calcIndicesCreateKwargs with
  | Except.error e => ({ db with processingStatus := "failed" }, Except.error e)
  | Except.ok _ =>
    let db1 := { db with task := some ⟨"processing", 0⟩ }
    let r := indices_list.foldl (processOne compute) (db1, [])
    let db2 := if ∀ c ∈ rsei_components, c ∈ r.2 then rseiBlock rseiOutcome r.1
               else r.1
    ({ db2 with isProcessed := true, processingStatus := "completed",
                task := some ⟨"completed", 100⟩ }, Except.ok ())

end Orchestrator

/-- C3 (code bug): the spec's invariant requires a successful run of
`calculate_ecological_indices` to leave at least one `EcologicalIndex`
row once it sets `is_processed` to true, but the code can never produce
such a run: for every image state, every requested index list and every
possible outcome of the per-index and RSEI computations, the job raises
(`TypeError` at the `ProcessingTask.objects.create` call of tasks.py
lines 32-37, before the index loop), marks the image
`processing_status='failed'`, never sets `is_processed`, and creates no
`EcologicalIndex` row — the successful run the claim describes is
unreachable. -/
theorem c3_job_crashes_before_any_index (compute : String → Option Unit)
    (rseiOutcome : Option Unit) (indices_list : List String)
    (db : Orchestrator.DB) :
    (Orchestrator.calculate_ecological_indices compute rseiOutcome indices_list
        db).1.isProcessed = db.isProcessed ∧
    (Orchestrator.calculate_ecological_indices compute rseiOutcome indices_list
        db).1.ecologicalIndices = db.ecologicalIndices ∧
    (Orchestrator.calculate_ecological_indices compute rseiOutcome indices_list
        db).1.processingStatus = "failed" ∧
    (Orchestrator.calculate_ecological_indices compute rseiOutcome indices_list
        db).1.task = db.task ∧
    (∃ e, (Orchestrator.calculate_ecological_indices compute rseiOutcome
        indices_list db).2 = Except.error e) ∧
    (Orchestrator.calculate_ecological_indices compute rseiOutcome indices_list
        Orchestrator.initialDB).1.isProcessed = false ∧
    (Orchestrator.calculate_ecological_indices compute rseiOutcome indices_list
        Orchestrator.initialDB).1.ecologicalIndices = [] :=
  ⟨rfl, rfl, rfl, rfl, ⟨"TypeError: unexpected keyword argument", rfl⟩, rfl, rfl⟩

theorem sqrt_add_le_add_sqrt {x y : ℝ} (hx : 0 ≤ x) (hy : 0 ≤ y) :
    Real.sqrt (x + y) ≤ Real.sqrt x + Real.sqrt y := by
  rw [Real.sqrt_le_iff]
  constructor
  · positivity
  · nlinarith [Real.sq_sqrt hx, Real.sq_sqrt hy, Real.sqrt_nonneg x,
      Real.sqrt_nonneg y, mul_nonneg (Real.sqrt_nonneg x) (Real.sqrt_nonneg y)]

theorem sqrt_list_sum_le (l : List ℝ) (h : ∀ x ∈ l, 0 ≤ x) :
    Real.sqrt l.sum ≤ (l.map Real.sqrt).sum := by
  induction l with
  | nil => simp
  | cons x xs ih =>
    rw [List.sum_cons, List.map_cons, List.sum_cons]
    have hx := h x (List.mem_cons_self x xs)
    have hxs : 0 ≤ xs.sum :=
      List.sum_nonneg fun y hy => h y (List.mem_cons_of_mem x hy)
    calc Real.sqrt (x + xs.sum) ≤ Real.sqrt x + Real.sqrt xs.sum :=
          sqrt_add_le_add_sqrt hx hxs
      _ ≤ Real.sqrt x + (xs.map Real.sqrt).sum := by
          have := ih fun y hy => h y (List.mem_cons_of_mem x hy)
          linarith

theorem list_sum_map_div (l : List ℕ) (c : ℝ) :
    (l.map fun a : ℕ => (a : ℝ) / c).sum = (l.map fun a : ℕ => (a : ℝ)).sum / c := by
  induction l with
  | nil => simp
  | cons x xs ih => simp [List.sum_cons, ih, add_div]

namespace LandUseAnalyzer

/-!
`LandUseAnalyzer` in `src/environment/gdal_land_use_analysis.py`.  The
classified raster is a flattened `List ℤ` of class values with the
internal no-data sentinel `-9999`; connected-component labelling
(`scipy.ndimage.label`, an external-library boundary) partitions the
valid-data mask into patches, so patch-dependent operations are
parameterised by the list of patch pixel areas it produces (every patch
of `ndimage.label` is non-empty, hence each area is at least 1).
-/

/-- `calculate_cohesion_index` (lines 184-228), as a function of the
patch areas produced by `ndimage.label` on the valid-data mask: `0` when
there are no patches, else
`max(0, min(100, (1 - Σ aᵢ/√(aᵢ·A)) · 100))` with `A = Σ aᵢ` when
`A > 0`, else `0`. -/
noncomputable def calculate_cohesion_index (patch_areas : List ℕ) : ℝ :=
  if patch_areas.length = 0 then 0
  else
    if 0 < ((patch_areas.map fun b => ((b : ℕ) : ℝ)).sum) then
      max 0 (min 100
        ((1 - ((patch_areas.map fun a : ℕ =>
            (a : ℝ) / Real.sqrt ((a : ℝ) *
              (patch_areas.map fun b => ((b : ℕ) : ℝ)).sum)).sum)) * 100))
    else 0

end LandUseAnalyzer

/-- C9: for every land-use raster with at least one valid pixel — i.e.
for every non-empty patch-area list from the connected-component
labelling, each patch having area at least 1 — the pre-clamp value
`100·(1 − Σ aᵢ/√(aᵢ·A))` equals `100·(1 − Σ √(aᵢ/A))`, is never
positive (since `Σ √(aᵢ/A) ≥ √(Σ aᵢ/A) = 1`), and therefore the
returned cohesion index, clamped to `[0, 100]`, is exactly `0`. -/
theorem c9_cohesion_index_always_zero (areas : List ℕ) (hne : areas ≠ [])
    (h1 : ∀ a ∈ areas, 1 ≤ a) :
    ((1 - ((areas.map fun a : ℕ =>
        (a : ℝ) / Real.sqrt ((a : ℝ) *
          (areas.map fun b => ((b : ℕ) : ℝ)).sum)).sum)) * 100 =
      (1 - ((areas.map fun a : ℕ =>
        Real.sqrt ((a : ℝ) /
          (areas.map fun b => ((b : ℕ) : ℝ)).sum)).sum)) * 100) ∧
    ((1 - ((areas.map fun a : ℕ =>
        (a : ℝ) / Real.sqrt ((a : ℝ) *
          (areas.map fun b => ((b : ℕ) : ℝ)).sum)).sum)) * 100 ≤ 0) ∧
    LandUseAnalyzer.calculate_cohesion_index areas = 0 := by
  have hS : 0 < ((areas.map fun b => ((b : ℕ) : ℝ)).sum) := by
    apply List.sum_pos
    · intro x hx
      obtain ⟨a, ha, rfl⟩ := List.mem_map.mp hx
      have : (1 : ℝ) ≤ (a : ℝ) := by exact_mod_cast h1 a ha
      linarith
    · simpa using hne
  have hpoint : ∀ a ∈ areas,
      (a : ℝ) / Real.sqrt ((a : ℝ) * (areas.map fun b => ((b : ℕ) : ℝ)).sum) =
      Real.sqrt ((a : ℝ) / (areas.map fun b => ((b : ℕ) : ℝ)).sum) := by
    intro a ha
    have ha1 : (1 : ℝ) ≤ (a : ℝ) := by exact_mod_cast h1 a ha
    have ha0 : (0 : ℝ) ≤ (a : ℝ) := by linarith
    calc (a : ℝ) / Real.sqrt ((a : ℝ) * (areas.map fun b => ((b : ℕ) : ℝ)).sum)
        = (a : ℝ) / (Real.sqrt (a : ℝ) *
            Real.sqrt ((areas.map fun b => ((b : ℕ) : ℝ)).sum)) := by
          rw [Real.sqrt_mul ha0]
      _ = (a : ℝ) / Real.sqrt (a : ℝ) /
            Real.sqrt ((areas.map fun b => ((b : ℕ) : ℝ)).sum) := by
          rw [div_mul_eq_div_div]
      _ = Real.sqrt (a : ℝ) /
            Real.sqrt ((areas.map fun b => ((b : ℕ) : ℝ)).sum) := by
          rw [Real.div_sqrt]
      _ = Real.sqrt ((a : ℝ) / (areas.map fun b => ((b : ℕ) : ℝ)).sum) :=
          (Real.sqrt_div ha0 _).symm
  have hmapeq : (areas.map fun a : ℕ =>
      (a : ℝ) / Real.sqrt ((a : ℝ) * (areas.map fun b => ((b : ℕ) : ℝ)).sum)).sum =
      (areas.map fun a : ℕ =>
        Real.sqrt ((a : ℝ) / (areas.map fun b => ((b : ℕ) : ℝ)).sum)).sum := by
    congr 1
    exact List.map_congr_left hpoint
  have hge1 : 1 ≤ (areas.map fun a : ℕ =>
      Real.sqrt ((a : ℝ) / (areas.map fun b => ((b : ℕ) : ℝ)).sum)).sum := by
    have hnn : ∀ x ∈ areas.map fun a : ℕ =>
        (a : ℝ) / (areas.map fun b => ((b : ℕ) : ℝ)).sum, 0 ≤ x := by
      intro x hx
      obtain ⟨a, ha, rfl⟩ := List.mem_map.mp hx
      positivity
    have hle := sqrt_list_sum_le _ hnn
    have hsum : (areas.map fun a : ℕ =>
        (a : ℝ) / (areas.map fun b => ((b : ℕ) : ℝ)).sum).sum = 1 := by
      rw [list_sum_map_div]
      exact div_self (ne_of_gt hS)
    rw [hsum, Real.sqrt_one, List.map_map] at hle
    have hcomp : (Real.sqrt ∘ fun a : ℕ =>
        (a : ℝ) / (areas.map fun b => ((b : ℕ) : ℝ)).sum) =
        fun a : ℕ =>
          Real.sqrt ((a : ℝ) / (areas.map fun b => ((b : ℕ) : ℝ)).sum) := rfl
    rw [hcomp] at hle
    exact hle
  have hx0 : (1 - ((areas.map fun a : ℕ =>
      (a : ℝ) / Real.sqrt ((a : ℝ) *
        (areas.map fun b => ((b : ℕ) : ℝ)).sum)).sum)) * 100 ≤ 0 := by
    rw [hmapeq]
    nlinarith
  refine ⟨by rw [hmapeq], hx0, ?_⟩
  unfold LandUseAnalyzer.calculate_cohesion_index
  rw [if_neg (by simpa using hne), if_pos hS]
  rw [min_eq_right (le_trans hx0 (by norm_num))]
  exact max_eq_left hx0

/-- C9 witness: a raster whose valid mask forms a single one-pixel patch
has cohesion index 0. -/
theorem c9_cohesion_index_always_zero_witness :
    LandUseAnalyzer.calculate_cohesion_index [1] = 0 :=
  (c9_cohesion_index_always_zero [1] (by decide)
    (by intro a ha; simp at ha; omega)).2.2

namespace LandUseAnalyzer

/-- The eight class ids of `self.landuse_classes`
(`gdal_land_use_analysis.py` lines 41-50). -/
def landuse_class_ids : List ℤ := [1, 2, 3, 4, 5, 6, 7, 8]

/-- The `class_counts` accumulation of `calculate_diversity_index`
(lines 240-247): per class id, the pixel count, kept only when
positive. -/
def classCounts (data : List ℤ) : List (ℤ × ℕ) :=
  landuse_class_ids.filterMap fun c =>
    if 0 < data.count c then some (c, data.count c) else none

/-- Result record of `calculate_diversity_index`; in the
`valid_pixels == 0` early return (line 250) the dict carries no
`pielou_evenness` key, modelled as `none`. -/
structure DiversityResult where
  shannon_diversity : ℝ
  simpson_diversity : ℝ
  pielou_evenness : Option ℝ

/-- `calculate_diversity_index` (lines 230-283): proportions
`pᵢ = countᵢ / valid_pixels` over the present classes, Shannon
`H = −Σ pᵢ·ln(pᵢ)` and Simpson `Σ pᵢ²` accumulated under the `pi > 0`
guard, Simpson diversity `1 − Σ pᵢ²`, Pielou evenness
`H / ln(#present classes)` guarded by `max_shannon > 0` (else `0`). -/
noncomputable def calculate_diversity_index (data : List ℤ) : DiversityResult :=
  let cc := classCounts data
  let valid : ℕ := (cc.map fun p => p.2).sum
  if valid = 0 then ⟨0, 0, none⟩
  else
    let shannonSum := (cc.map fun p =>
      if 0 < ((p.2 : ℝ) / (valid : ℝ)) then
        ((p.2 : ℝ) / (valid : ℝ)) * Real.log ((p.2 : ℝ) / (valid : ℝ))
      else 0).sum
    let simpsonSum := (cc.map fun p =>
      if 0 < ((p.2 : ℝ) / (valid : ℝ)) then
        ((p.2 : ℝ) / (valid : ℝ)) * ((p.2 : ℝ) / (valid : ℝ))
      else 0).sum
    let maxShannon := Real.log ((cc.length : ℕ) : ℝ)
    ⟨-shannonSum, 1 - simpsonSum,
      some (if 0 < maxShannon then -shannonSum / maxShannon else 0)⟩

end LandUseAnalyzer

theorem filterMap_single {α β : Type} [DecidableEq α] (l : List α) (c : α)
    (f : α → Option β) (b : β) (hl : l.count c = 1) (hc : f c = some b)
    (hother : ∀ q ∈ l, q ≠ c → f q = none) : l.filterMap f = [b] := by
  induction l with
  | nil => simp at hl
  | cons x xs ih =>
    by_cases hx : x = c
    · subst hx
      rw [List.count_cons_self] at hl
      have hxs : x ∉ xs := by
        rw [← List.count_eq_zero]
        omega
      rw [List.filterMap_cons, hc]
      rw [List.filterMap_eq_nil_iff.mpr fun q hq =>
        hother q (List.mem_cons_of_mem x hq) fun he => hxs (he ▸ hq)]
    · rw [List.filterMap_cons,
        hother x (List.mem_cons_self x xs) hx]
      apply ih
      · rwa [List.count_cons_of_ne (fun he => hx he.symm)] at hl
      · exact fun q hq => hother q (List.mem_cons_of_mem x hq)

/-- C8: the diversity operation computes Shannon `−Σ pᵢ ln pᵢ`, Simpson
`1 − Σ pᵢ²` and Pielou `H / ln(#classes)` with the zero-log-denominator
guard, so for every raster in which every valid (non-sentinel) pixel
belongs to one single class (present at least once), it returns Shannon
0, Simpson 0 and Pielou evenness 0 without failure. -/
theorem c8_diversity_single_class (data : List ℤ) (c : ℤ)
    (hc : c ∈ LandUseAnalyzer.landuse_class_ids)
    (hpos : 0 < data.count c)
    (honly : ∀ x ∈ data, x ≠ -9999 → x = c) :
    (LandUseAnalyzer.calculate_diversity_index data).shannon_diversity = 0 ∧
    (LandUseAnalyzer.calculate_diversity_index data).simpson_diversity = 0 ∧
    (LandUseAnalyzer.calculate_diversity_index data).pielou_evenness = some 0 := by
  have hzero : ∀ q : ℤ, q ≠ c → q ≠ -9999 → data.count q = 0 := by
    intro q h1 h2
    rw [List.count_eq_zero]
    intro hmem
    exact h1 (honly q hmem h2)
  have hids : ∀ q ∈ LandUseAnalyzer.landuse_class_ids, q ≠ (-9999 : ℤ) := by decide
  have hcc : LandUseAnalyzer.classCounts data = [(c, data.count c)] := by
    apply filterMap_single _ c _ _
      (List.count_eq_one_of_mem (by decide) hc)
      (by rw [if_pos hpos])
      (fun q hq hqc => by simp [hzero q hqc (hids q hq)])
  have hne : (data.count c : ℝ) ≠ 0 := by
    have : data.count c ≠ 0 := Nat.pos_iff_ne_zero.mp hpos
    exact_mod_cast this
  have hdiv : ((data.count c : ℕ) : ℝ) / ((data.count c : ℕ) : ℝ) = 1 :=
    div_self hne
  simp only [LandUseAnalyzer.calculate_diversity_index, hcc, List.map_cons,
    List.map_nil, List.sum_cons, List.sum_nil, List.length_cons, List.length_nil]
  rw [if_neg (by omega)]
  simp [hdiv, Real.log_one]

/-- C8 witness: a raster whose valid pixels are all class 2 (forest),
with one no-data pixel, yields Shannon 0, Simpson 0, Pielou 0. -/
theorem c8_diversity_single_class_witness :
    (LandUseAnalyzer.calculate_diversity_index [2, 2, -9999]).shannon_diversity = 0 ∧
    (LandUseAnalyzer.calculate_diversity_index [2, 2, -9999]).simpson_diversity = 0 ∧
    (LandUseAnalyzer.calculate_diversity_index [2, 2, -9999]).pielou_evenness =
      some 0 :=
  c8_diversity_single_class [2, 2, -9999] 2 (by decide) (by decide) (by decide)

/-! ### RSEI post-PCA assembly

Both engines finish `calculate_rsei` the same way: build the per-pixel
validity mask over the four component rasters, scatter the first
principal component's scores back over the valid positions (`np.nan`
elsewhere), and min-max normalize the valid values.  Standardisation and
PCA are external-library boundaries (`sklearn`), so the scores are a
parameter `pc1 : List ℚ`; in the source its length always equals the
number of valid pixels by construction.  When all valid values are
equal, `(v - min) / (max - min)` is `0/0 = NaN` in floating point, so the
normalisation yields a missing value, modelled by `none`.
-/

/-- The four-component validity mask: Engine A's
`~np.isnan(indices).any(axis=1)` (`ecological_indices.py` line 248) and
Engine B's `np.isfinite(...) & ...` (`gdal_ecological_indices.py` lines
335-336). -/
def validMask4 : List (Option ℚ) → List (Option ℚ) → List (Option ℚ) →
    List (Option ℚ) → List Bool
  | a :: as, b :: bs, c :: cs, d :: ds =>
    (a.isSome && b.isSome && c.isSome && d.isSome) :: validMask4 as bs cs ds
  | _, _, _, _ => []

/-- `rsei = np.full(..., np.nan); rsei[valid_mask] = pc1`. -/
def scatterPC1 : List Bool → List ℚ → List (Option ℚ)
  | [], _ => []
  | true :: ms, p :: ps => some p :: scatterPC1 ms ps
  | true :: ms, [] => none :: scatterPC1 ms []
  | false :: ms, ps => none :: scatterPC1 ms ps

/-- `(rsei - nanmin(rsei)) / (nanmax(rsei) - nanmin(rsei))` applied over
the raster: missing pixels stay missing, and with `min = max` the float
quotient `0/0` is `NaN` (`none`). -/
def minMaxNormalize (xs : List (Option ℚ)) : List (Option ℚ) :=
  match listMin (xs.filterMap id), listMax (xs.filterMap id) with
  | some m, some M =>
    xs.map fun o => o.bind fun v => if m < M then some ((v - m) / (M - m)) else none
  | _, _ => xs

namespace EcologicalIndexCalculator

/-- Engine A `calculate_rsei`, lines 242-272, after the PCA boundary. -/
def rsei_scatter_normalize (g w d h : List (Option ℚ)) (pc1 : List ℚ) :
    List (Option ℚ) :=
  minMaxNormalize (scatterPC1 (validMask4 g w d h) pc1)

end EcologicalIndexCalculator

namespace GDALCalc

/-- Engine B `calculate_rsei`, lines 334-362, after the PCA boundary. -/
def rsei_scatter_normalize (g w d h : List (Option ℚ)) (pc1 : List ℚ) :
    List (Option ℚ) :=
  minMaxNormalize (scatterPC1 (validMask4 g w d h) pc1)

end GDALCalc

theorem listMin_le : ∀ (xs : List ℚ) (m : ℚ), listMin xs = some m →
    ∀ v ∈ xs, m ≤ v := by
  intro xs
  induction xs with
  | nil => intro m h; cases h
  | cons x l ih =>
    intro m h v hv
    rw [listMin] at h
    rcases List.mem_cons.mp hv with rfl | hv'
    · cases hl : listMin l with
      | none => rw [hl] at h; cases h; exact le_refl _
      | some m2 => rw [hl] at h; cases h; exact min_le_left _ _
    · cases hl : listMin l with
      | none =>
        cases l with
        | nil => cases hv'
        | cons y ys => rw [listMin] at hl; cases hyl : listMin ys <;>
            rw [hyl] at hl <;> cases hl
      | some m2 =>
        rw [hl] at h; cases h
        exact le_trans (min_le_right _ _) (ih m2 hl v hv')

theorem le_listMax : ∀ (xs : List ℚ) (M : ℚ), listMax xs = some M →
    ∀ v ∈ xs, v ≤ M := by
  intro xs
  induction xs with
  | nil => intro M h; cases h
  | cons x l ih =>
    intro M h v hv
    rw [listMax] at h
    rcases List.mem_cons.mp hv with rfl | hv'
    · cases hl : listMax l with
      | none => rw [hl] at h; cases h; exact le_refl _
      | some M2 => rw [hl] at h; cases h; exact le_max_left _ _
    · cases hl : listMax l with
      | none =>
        cases l with
        | nil => cases hv'
        | cons y ys => rw [listMax] at hl; cases hyl : listMax ys <;>
            rw [hyl] at hl <;> cases hl
      | some M2 =>
        rw [hl] at h; cases h
        exact le_trans (ih M2 hl v hv') (le_max_right _ _)

theorem listMin_isSome (l : List ℚ) (h : l ≠ []) : (listMin l).isSome := by
  cases l with
  | nil => exact absurd rfl h
  | cons x xs =>
    rw [listMin]
    cases listMin xs <;> simp

theorem scatterPC1_length : ∀ (ms : List Bool) (ps : List ℚ),
    (scatterPC1 ms ps).length = ms.length := by
  intro ms
  induction ms with
  | nil => intro ps; rfl
  | cons m ms' ih =>
    intro ps
    cases m with
    | true => cases ps with
      | nil => simp [scatterPC1, ih]
      | cons p ps' => simp [scatterPC1, ih]
    | false => simp [scatterPC1, ih]

theorem minMaxNormalize_length (xs : List (Option ℚ)) :
    (minMaxNormalize xs).length = xs.length := by
  rw [minMaxNormalize]
  cases listMin (xs.filterMap id) <;> cases listMax (xs.filterMap id) <;> simp

theorem scatterPC1_get_false : ∀ (ms : List Bool) (ps : List ℚ) (i : ℕ),
    ms.get? i = some false → (scatterPC1 ms ps).get? i = some none := by
  intro ms
  induction ms with
  | nil => intro ps i h; cases h
  | cons m ms' ih =>
    intro ps i h
    cases i with
    | zero =>
      rw [List.get?] at h
      cases h
      cases ps <;> rfl
    | succ j =>
      rw [List.get?] at h
      cases m with
      | true => cases ps with
        | nil => exact ih [] j h
        | cons p ps' => exact ih ps' j h
      | false => exact ih ps j h

theorem validMask4_false : ∀ (g w d h : List (Option ℚ)) (i : ℕ),
    i < (validMask4 g w d h).length →
    (g.get? i = some none ∨ w.get? i = some none ∨ d.get? i = some none ∨
      h.get? i = some none) →
    (validMask4 g w d h).get? i = some false := by
  intro g
  induction g with
  | nil =>
    intro w d h i hi
    rw [show validMask4 [] w d h = [] from rfl] at hi
    simp at hi
  | cons a as ih =>
    intro w d h i hi hor
    cases w with
    | nil =>
      rw [show validMask4 (a :: as) [] d h = [] from rfl] at hi
      simp at hi
    | cons b bs =>
      cases d with
      | nil =>
        rw [show validMask4 (a :: as) (b :: bs) [] h = [] from rfl] at hi
        simp at hi
      | cons c cs =>
        cases h with
        | nil =>
          rw [show validMask4 (a :: as) (b :: bs) (c :: cs) [] = [] from rfl] at hi
          simp at hi
        | cons e es =>
          have hstep : validMask4 (a :: as) (b :: bs) (c :: cs) (e :: es) =
              (a.isSome && b.isSome && c.isSome && e.isSome) ::
                validMask4 as bs cs es := rfl
          cases i with
          | zero =>
            rw [hstep, List.get?]
            congr 1
            rcases hor with h0 | h0 | h0 | h0 <;>
              · rw [List.get?] at h0
                cases h0
                simp
          | succ j =>
            rw [hstep] at hi ⊢
            rw [List.get?]
            apply ih bs cs es j
            · simpa using hi
            · rcases hor with h0 | h0 | h0 | h0 <;>
                rw [List.get?] at h0 <;> [exact Or.inl h0; exact Or.inr (Or.inl h0);
                  exact Or.inr (Or.inr (Or.inl h0));
                  exact Or.inr (Or.inr (Or.inr h0))]

theorem minMaxNormalize_none (xs : List (Option ℚ)) (i : ℕ)
    (h : xs.get? i = some none) : (minMaxNormalize xs).get? i = some none := by
  rw [minMaxNormalize]
  cases hm : listMin (xs.filterMap id) with
  | none => cases hM : listMax (xs.filterMap id) <;> exact h
  | some m =>
    cases hM : listMax (xs.filterMap id) with
    | none => exact h
    | some M =>
      rw [List.get?_map, h]
      rfl

theorem listMax_isSome (l : List ℚ) (h : l ≠ []) : (listMax l).isSome := by
  cases l with
  | nil => exact absurd rfl h
  | cons x xs =>
    rw [listMax]
    cases listMax xs <;> simp

theorem minMaxNormalize_some_mem (xs : List (Option ℚ)) (i : ℕ) (y : ℚ)
    (h : (minMaxNormalize xs).get? i = some (some y)) : 0 ≤ y ∧ y ≤ 1 := by
  rw [minMaxNormalize] at h
  cases hm : listMin (xs.filterMap id) with
  | none =>
    rw [hm] at h
    cases hM : listMax (xs.filterMap id) <;> rw [hM] at h <;>
      · exfalso
        have hmem : (some y) ∈ xs := List.get?_mem h
        have hy : y ∈ xs.filterMap id := List.mem_filterMap.mpr ⟨some y, hmem, rfl⟩
        have hs := listMin_isSome (xs.filterMap id) (List.ne_nil_of_mem hy)
        rw [hm] at hs
        cases hs
  | some m =>
    cases hM : listMax (xs.filterMap id) with
    | none =>
      rw [hm, hM] at h
      exfalso
      have hmem : (some y) ∈ xs := List.get?_mem h
      have hy : y ∈ xs.filterMap id := List.mem_filterMap.mpr ⟨some y, hmem, rfl⟩
      have hs := listMax_isSome (xs.filterMap id) (List.ne_nil_of_mem hy)
      rw [hM] at hs
      cases hs
    | some M =>
      rw [hm, hM, List.get?_map] at h
      cases ho : xs.get? i with
      | none => rw [ho] at h; cases h
      | some o =>
        rw [ho, Option.map_some'] at h
        have h' := Option.some.inj h
        cases o with
        | none => rw [Option.none_bind] at h'; cases h'
        | some v =>
          rw [Option.some_bind] at h'
          by_cases hlt : m < M
          · rw [if_pos hlt] at h'
            have hv : v ∈ xs.filterMap id :=
              List.mem_filterMap.mpr ⟨some v, List.get?_mem ho, rfl⟩
            have h1 : m ≤ v := listMin_le _ m hm v hv
            have h2 : v ≤ M := le_listMax _ M hM v hv
            have hpos : 0 < M - m := by linarith
            cases h'
            constructor
            · exact div_nonneg (by linarith) (le_of_lt hpos)
            · rw [div_le_one hpos]
              linarith
          · rw [if_neg hlt] at h'
            cases h'

/-- C6: in both engines, whenever RSEI computation succeeds, the
scattered and min-max-normalized RSEI raster has every valid (non-missing)
output pixel in `[0, 1]`, and every pixel missing in any of the four
component inputs is missing in the output — for every possible vector of
first-principal-component scores the PCA boundary can produce. -/
theorem c6_rsei_range_and_missing :
    ∀ (g w d h : List (Option ℚ)) (pc1 : List ℚ),
      (∀ i, i < (EcologicalIndexCalculator.rsei_scatter_normalize g w d h pc1).length →
        (g.get? i = some none ∨ w.get? i = some none ∨ d.get? i = some none ∨
          h.get? i = some none) →
        (EcologicalIndexCalculator.rsei_scatter_normalize g w d h pc1).get? i =
          some none) ∧
      (∀ i y,
        (EcologicalIndexCalculator.rsei_scatter_normalize g w d h pc1).get? i =
          some (some y) → 0 ≤ y ∧ y ≤ 1) ∧
      (∀ i, i < (GDALCalc.rsei_scatter_normalize g w d h pc1).length →
        (g.get? i = some none ∨ w.get? i = some none ∨ d.get? i = some none ∨
          h.get? i = some none) →
        (GDALCalc.rsei_scatter_normalize g w d h pc1).get? i = some none) ∧
      (∀ i y, (GDALCalc.rsei_scatter_normalize g w d h pc1).get? i =
          some (some y) → 0 ≤ y ∧ y ≤ 1) := by
  intro g w d h pc1
  have hmiss : ∀ i, i < (minMaxNormalize (scatterPC1 (validMask4 g w d h) pc1)).length →
      (g.get? i = some none ∨ w.get? i = some none ∨ d.get? i = some none ∨
        h.get? i = some none) →
      (minMaxNormalize (scatterPC1 (validMask4 g w d h) pc1)).get? i = some none := by
    intro i hi hor
    rw [minMaxNormalize_length, scatterPC1_length] at hi
    exact minMaxNormalize_none _ i
      (scatterPC1_get_false _ pc1 i (validMask4_false g w d h i hi hor))
  exact ⟨hmiss, fun i y hy => minMaxNormalize_some_mem _ i y hy,
    hmiss, fun i y hy => minMaxNormalize_some_mem _ i y hy⟩

/-- C6 witness: a three-pixel raster whose first pixel is missing in the
greenness component; with PC1 scores `[0, 5]` the output is
`[missing, 0, 1]`: the missing pixel stays missing and the valid pixels
land in `[0, 1]`. -/
theorem c6_rsei_range_and_missing_witness :
    ((EcologicalIndexCalculator.rsei_scatter_normalize
        [none, some 0, some 2] [some 1, some 1, some 1] [some 1, some 1, some 1]
        [some 1, some 1, some 1] [0, 5]).get? 0 = some none) ∧
    (0 ≤ (1 : ℚ) ∧ (1 : ℚ) ≤ 1) ∧
    ((GDALCalc.rsei_scatter_normalize
        [none, some 0, some 2] [some 1, some 1, some 1] [some 1, some 1, some 1]
        [some 1, some 1, some 1] [0, 5]).get? 0 = some none) ∧
    (0 ≤ (0 : ℚ) ∧ (0 : ℚ) ≤ 1) := by
  obtain ⟨h1, h2, h3, h4⟩ := c6_rsei_range_and_missing
    [none, some 0, some 2] [some 1, some 1, some 1] [some 1, some 1, some 1]
    [some 1, some 1, some 1] [0, 5]
  refine ⟨h1 0 (by decide) (Or.inl rfl), h2 2 1 ?_, h3 0 (by decide) (Or.inl rfl),
    h4 1 0 ?_⟩ <;>
    norm_num [EcologicalIndexCalculator.rsei_scatter_normalize,
      GDALCalc.rsei_scatter_normalize, minMaxNormalize, scatterPC1, validMask4,
      listMin, listMax]

namespace GDALCalc

/-- The five-class thresholds of Engine B's `calculate_statistics`
(`gdal_ecological_indices.py` line 415). -/
def classification_thresholds : List ℚ := [-1, -0.2, 0, 0.2, 0.4, 1]

/-- The five class labels (line 416). -/
def classification_labels : List String := ["很差", "差", "中等", "良好", "优秀"]

/-- The five-class bucketing loop (lines 418-421):
`zip(thresholds[:-1], labels)` with
`mask = (valid_data >= threshold) & (valid_data < thresholds[i+1])`,
reporting per class the pixel count and the ratio over the valid
pixels. -/
def classCounts5 (valid : List ℚ) : List (String × ℕ × ℚ) :=
  (List.zip (List.zip classification_thresholds.dropLast
      classification_thresholds.tail) classification_labels).map fun p =>
    let n := (valid.filter fun v => decide (p.1.1 ≤ v) && decide (v < p.1.2)).length
    (p.2, n, (n : ℚ) / (valid.length : ℚ))

/-- The statistics record of `calculate_statistics` (lines 382-427).  The
`std`, `median` and percentile fields are irrational/interpolated
floating-point quantities that play no role in the classification (which
reads only `min`, `max` and `valid_data`), so they are not tracked. -/
structure GdalStats where
  min : ℚ
  max : ℚ
  mean : ℚ
  valid_pixels : ℕ
  total_pixels : ℕ
  valid_ratio : ℚ
  classes : Option (List (String × ℕ × ℚ))

/-- `calculate_statistics`: `None` when there are no valid pixels, else
the summary statistics, with the five-class bucketing attached exactly
when the data range lies within `[-1, 1]`
(`if stats['min'] >= -1 and stats['max'] <= 1`, line 413). -/
def calculate_statistics (pixels : List (Option ℚ)) : Option GdalStats :=
  let valid := pixels.filterMap id
  match listMin valid, listMax valid with
  | some mn, some mx =>
    some { min := mn, max := mx,
           mean := valid.sum / (valid.length : ℚ),
           valid_pixels := valid.length,
           total_pixels := pixels.length,
           valid_ratio := (valid.length : ℚ) / (pixels.length : ℚ),
           classes := if -1 ≤ mn ∧ mx ≤ 1 then some (classCounts5 valid) else none }
  | _, _ => none

end GDALCalc

theorem bucket_indicator (x : ℚ) (h1 : -1 ≤ x) (h2 : x ≤ 1) :
    ((if (decide ((-1 : ℚ) ≤ x) && decide (x < -0.2)) = true then (1 : ℕ) else 0) +
     (if (decide ((-0.2 : ℚ) ≤ x) && decide (x < 0)) = true then 1 else 0) +
     (if (decide ((0 : ℚ) ≤ x) && decide (x < 0.2)) = true then 1 else 0) +
     (if (decide ((0.2 : ℚ) ≤ x) && decide (x < 0.4)) = true then 1 else 0) +
     (if (decide ((0.4 : ℚ) ≤ x) && decide (x < 1)) = true then 1 else 0)) =
    (if decide (x < 1) = true then 1 else 0) := by
  rcases lt_or_le x (-0.2) with c1 | c1
  · have d3 : ¬ ((0 : ℚ) ≤ x) := not_le.mpr (by linarith)
    have d4 : ¬ ((0.2 : ℚ) ≤ x) := not_le.mpr (by linarith)
    have d5 : ¬ ((0.4 : ℚ) ≤ x) := not_le.mpr (by linarith)
    have e : x < 1 := by linarith
    simp [h1, c1, not_le.mpr c1, d3, d4, d5, e]
  · rcases lt_or_le x 0 with c2 | c2
    · have d4 : ¬ ((0.2 : ℚ) ≤ x) := not_le.mpr (by linarith)
      have d5 : ¬ ((0.4 : ℚ) ≤ x) := not_le.mpr (by linarith)
      have e : x < 1 := by linarith
      simp [c1, c2, not_lt.mpr c1, d4, d5, e]
    · rcases lt_or_le x 0.2 with c3 | c3
      · have f2 : (-0.2 : ℚ) ≤ x := by linarith
        have d1 : ¬ (x < -0.2) := not_lt.mpr (by linarith)
        have d5 : ¬ ((0.4 : ℚ) ≤ x) := not_le.mpr (by linarith)
        have e : x < 1 := by linarith
        simp [c2, c3, f2, d1, not_lt.mpr c2, d5, e]
      · rcases lt_or_le x 0.4 with c4 | c4
        · have f2 : (-0.2 : ℚ) ≤ x := by linarith
          have f4 : (0.2 : ℚ) ≤ x := c3
          have d1 : ¬ (x < -0.2) := not_lt.mpr (by linarith)
          have d2 : ¬ (x < 0) := not_lt.mpr (by linarith)
          have d3 : ¬ (x < 0.2) := not_lt.mpr c3
          have e : x < 1 := by linarith
          simp [c4, f2, f4, d1, d2, d3, e]
        · rcases lt_or_le x 1 with c5 | c5
          · have f5 : (0.4 : ℚ) ≤ x := c4
            have d1 : ¬ (x < -0.2) := not_lt.mpr (by linarith)
            have d2 : ¬ (x < 0) := not_lt.mpr (by linarith)
            have d3 : ¬ (x < 0.2) := not_lt.mpr (by linarith)
            have d4 : ¬ (x < 0.4) := not_lt.mpr c4
            simp [c5, f5, d1, d2, d3, d4]
          · have d1 : ¬ (x < -0.2) := not_lt.mpr (by linarith)
            have d2 : ¬ (x < 0) := not_lt.mpr (by linarith)
            have d3 : ¬ (x < 0.2) := not_lt.mpr (by linarith)
            have d4 : ¬ (x < 0.4) := not_lt.mpr (by linarith)
            have d5 : ¬ (x < 1) := not_lt.mpr c5
            simp [d1, d2, d3, d4, d5]

theorem bucket_sum (l : List ℚ) (hl : ∀ v ∈ l, -1 ≤ v ∧ v ≤ 1) :
    (l.countP fun v => decide ((-1 : ℚ) ≤ v) && decide (v < -0.2)) +
    (l.countP fun v => decide ((-0.2 : ℚ) ≤ v) && decide (v < 0)) +
    (l.countP fun v => decide ((0 : ℚ) ≤ v) && decide (v < 0.2)) +
    (l.countP fun v => decide ((0.2 : ℚ) ≤ v) && decide (v < 0.4)) +
    (l.countP fun v => decide ((0.4 : ℚ) ≤ v) && decide (v < 1)) =
    l.countP fun v => decide (v < 1) := by
  induction l with
  | nil => rfl
  | cons x xs ih =>
    have hx := hl x (List.mem_cons_self x xs)
    have hxs := ih fun v hv => hl v (List.mem_cons_of_mem x hv)
    simp only [List.countP_cons]
    have hpt := bucket_indicator x hx.1 hx.2
    omega

/-- C10: when Engine B's statistics five-class bucketing applies (data
range within `[-1, 1]`), every bucket test is the half-open interval
`[tᵢ, tᵢ₊₁)`, so the five class counts sum exactly to the number of
valid pixels strictly below 1; a valid pixel equal to 1 (the top
threshold) is counted in no class, and whenever such a pixel exists the
five counts sum to strictly less than the valid-pixel count and the five
ratios sum to strictly less than 1. -/
theorem c10_statistics_top_value_uncounted (pixels : List (Option ℚ))
    (s : GDALCalc.GdalStats) (cl : List (String × ℕ × ℚ))
    (hs : GDALCalc.calculate_statistics pixels = some s)
    (hcl : s.classes = some cl) :
    ((cl.map fun e => e.2.1).sum =
      ((pixels.filterMap id).filter fun v => decide (v < 1)).length) ∧
    ((1 : ℚ) ∈ pixels.filterMap id →
      (cl.map fun e => e.2.1).sum < s.valid_pixels ∧
      (cl.map fun e => e.2.2).sum < 1) := by
  simp only [GDALCalc.calculate_statistics] at hs
  cases hmn : listMin (pixels.filterMap id) with
  | none => rw [hmn] at hs; cases hmx : listMax (pixels.filterMap id) <;>
      rw [hmx] at hs <;> cases hs
  | some mn =>
    cases hmx : listMax (pixels.filterMap id) with
    | none => rw [hmn, hmx] at hs; cases hs
    | some mx =>
      rw [hmn, hmx] at hs
      injection hs with hs'
      subst hs'
      change (if -1 ≤ mn ∧ mx ≤ 1 then
        some (GDALCalc.classCounts5 (pixels.filterMap id)) else none) = some cl at hcl
      by_cases hc : -1 ≤ mn ∧ mx ≤ 1
      · rw [if_pos hc] at hcl
        injection hcl with hcl'
        subst hcl'
        have hbound : ∀ v ∈ pixels.filterMap id, -1 ≤ v ∧ v ≤ 1 := fun v hv =>
          ⟨le_trans hc.1 (listMin_le _ mn hmn v hv),
           le_trans (le_listMax _ mx hmx v hv) hc.2⟩
        have hsum := bucket_sum (pixels.filterMap id) hbound
        have hcounts : ((GDALCalc.classCounts5 (pixels.filterMap id)).map
            fun e => e.2.1).sum =
            ((pixels.filterMap id).filter fun v => decide (v < 1)).length := by
          simp only [GDALCalc.classCounts5, GDALCalc.classification_thresholds,
            GDALCalc.classification_labels, List.dropLast, List.tail, List.zip,
            List.zipWith, List.map, List.sum_cons, List.sum_nil]
          simp only [← List.countP_eq_length_filter]
          omega
        refine ⟨hcounts, ?_⟩
        intro hone
        have hlt : ((pixels.filterMap id).filter fun v => decide (v < 1)).length <
            (pixels.filterMap id).length := by
          have hle := List.length_filter_le (fun v => decide (v < 1))
            (pixels.filterMap id)
          rcases lt_or_eq_of_le hle with h | h
          · exact h
          · exfalso
            have hall := List.filter_length_eq_length.mp h
            have := hall 1 hone
            simp at this
        constructor
        · rw [hcounts]
          exact hlt
        · have hratios : ((GDALCalc.classCounts5 (pixels.filterMap id)).map
              fun e => e.2.2).sum =
              ((((GDALCalc.classCounts5 (pixels.filterMap id)).map
                fun e => e.2.1).sum : ℕ) : ℚ) /
                (((pixels.filterMap id).length : ℕ) : ℚ) := by
            simp only [GDALCalc.classCounts5, GDALCalc.classification_thresholds,
              GDALCalc.classification_labels, List.dropLast, List.tail, List.zip,
              List.zipWith, List.map, List.sum_cons, List.sum_nil]
            push_cast
            ring
          have hLpos : (0 : ℚ) < ((pixels.filterMap id).length : ℚ) := by
            exact_mod_cast List.length_pos.mpr (List.ne_nil_of_mem hone)
          rw [hratios, hcounts, div_lt_one hLpos]
          exact_mod_cast hlt
      · rw [if_neg hc] at hcl
        cases hcl

/-- C10 witness: the one-pixel raster `[1.0]` has its range within
`[-1, 1]`, so the bucketing applies, yet the pixel falls in no class:
the counts sum to `0 < 1` and the ratios sum to `0 < 1`. -/
theorem c10_statistics_top_value_uncounted_witness :
    ∃ s cl, GDALCalc.calculate_statistics [some 1] = some s ∧
      s.classes = some cl ∧
      ((cl.map fun e => e.2.1).sum <  s.valid_pixels ∧
        (cl.map fun e => e.2.2).sum < 1) := by
  refine ⟨_, _, rfl, rfl, ?_⟩
  exact (c10_statistics_top_value_uncounted [some 1] _ _ rfl rfl).2 (by decide)
